import Mathlib

/-!
Verification development for the NimmoAutoChatbot conversation and
fulfillment engine (src/src/services/whatsappService.ts and the
UserIntent data model).  JavaScript strings are embedded as lists of
characters, JavaScript numbers as rationals, and nullable values as
options.  Statuses and the short machine-readable field labels are kept
as Lean strings.  The mutable per-user UserIntent document is embedded
as an immutable state record; each message-handler branch becomes a
state-transforming function.  The lastUpdated timestamp is omitted: no
claim mentions it and it carries no dialogue information.
-/

/-- JavaScript strings are modelled as lists of characters. -/
abbrev Str := List Char

/-- The normalization used throughout the handler: String.toLowerCase. -/
def toLowerCase (s : Str) : Str := s.map Char.toLower

/-- Embeds the JavaScript test needle-is-substring-of-hay, i.e.
hay.includes(needle).  The empty needle is a substring of everything. -/
def isStartOf : Str → Str → Bool
  | [], _ => true
  | _ :: _, [] => false
  | b :: bs, a :: as => b == a && isStartOf bs as

/-- hay.includes(needle) in JavaScript: needle occurs contiguously in hay. -/
def strContains (hay needle : Str) : Bool :=
  match hay with
  | [] => needle.isEmpty
  | _ :: t => isStartOf needle hay || strContains t needle

/-- JavaScript truthiness of a nullable string: non-null and non-empty. -/
def truthyStr : Option Str → Bool
  | none => false
  | some s => !s.isEmpty

/-- JavaScript truthiness of a nullable number: non-null and non-zero. -/
def truthyNum : Option Rat → Bool
  | none => false
  | some b => decide (b ≠ 0)

/-- The two catalog partitions (the type slot of a UserIntent). -/
inductive OfferType
  | vehicule
  | immobilier
deriving DecidableEq

/-- The language slot, the TS union of the two literals fr and en. -/
inductive Lang
  | fr
  | en
deriving DecidableEq

/-- A catalog document (union of the Vehicule and Immobilier fields the
handler reads).  Fields the source reads through a-or-empty-string
defaults are plain strings; prix is nullable because the source guards
it with prix-or-zero. -/
structure Offer where
  id : Nat
  nom : Str
  prix : Option Rat
  localisationFr : Str
  villeFr : Str
  description : Str
  CategorieFr : Str
  modeleFr : Str
  marqueFr : Str
deriving DecidableEq

/-- prix with the source's or-zero default. -/
def prixOrZero (o : Offer) : Rat := o.prix.getD 0

/-- The userInfo sub-record stored on a UserIntent document.  For the
stored record, an absent key and a null value are indistinguishable to
every reader (all reads are truthiness tests), so both are none. -/
structure UserInfo where
  nom : Option Str
  prenom : Option Str
  villeActuelle : Option Str
  email : Option Str
  nombreJours : Option Rat
  dateDebut : Option Str
  telephone : Option Str
deriving DecidableEq

/-- The userInfo record with no field known. -/
def emptyUserInfo : UserInfo :=
  { nom := none, prenom := none, villeActuelle := none, email := none
  , nombreJours := none, dateDebut := none, telephone := none }

/-- The result object parsed from the contact-extraction NLU reply.  A
key may be absent (outer none) or present with a null value (inner
none); the object-spread merge treats the two differently, so both
levels are modelled. -/
structure ExtractedUserInfo where
  nom : Option (Option Str)
  prenom : Option (Option Str)
  villeActuelle : Option (Option Str)
  email : Option (Option Str)
  nombreJours : Option (Option Rat)
  dateDebut : Option (Option Str)
deriving DecidableEq

/-- JavaScript truthiness of a possibly-absent nullable string. -/
def truthyStr2 : Option (Option Str) → Bool
  | none => false
  | some v => truthyStr v

/-- JavaScript truthiness of a possibly-absent nullable number. -/
def truthyNum2 : Option (Option Rat) → Bool
  | none => false
  | some v => truthyNum v

/-- The hasInfo check of extractUserInfo: at least one truthy field. -/
def hasInfo (e : ExtractedUserInfo) : Bool :=
  truthyStr2 e.nom || truthyStr2 e.prenom || truthyStr2 e.villeActuelle ||
  truthyStr2 e.email || truthyNum2 e.nombreJours || truthyStr2 e.dateDebut

/-- extractUserInfo returns the parsed object when hasInfo holds and
null otherwise (whatsappService.ts lines 856-858). -/
def extractUserInfoResult (e : ExtractedUserInfo) : Option ExtractedUserInfo :=
  if hasInfo e then some e else none

/-- The slot-extraction result of extractUserIntent: every field is
either absent or a truthy value because of the or-undefined defaults,
but the merge guards truthiness again, so arbitrary options are kept. -/
structure IntentExtract where
  service : Option Str
  town : Option Str
  budget : Option Rat
  type : Option OfferType
  language : Option Lang
deriving DecidableEq

/-- The all-null slot extraction. -/
def noneIntent : IntentExtract :=
  { service := none, town := none, budget := none, type := none, language := none }

/-- The per-user UserIntent document (the Session of the spec). -/
structure UserIntentState where
  service : Option Str
  town : Option Str
  budget : Option Rat
  type : Option OfferType
  language : Option Lang
  status : String
  lastProposedIds : List Nat
  selectedOfferId : Option Nat
  selectedOfferDetails : Option Offer
  requestType : Option String
  userInfo : UserInfo
deriving DecidableEq

/-- The intent merge of lines 168-172: each slot is overwritten only by
a truthy newly extracted value. -/
def mergeIntent (s : UserIntentState) (i : IntentExtract) : UserIntentState :=
  { s with
    service := if truthyStr i.service then i.service else s.service
    town := if truthyStr i.town then i.town else s.town
    budget := if truthyNum i.budget then i.budget else s.budget
    type := if i.type.isSome then i.type else s.type
    language := if i.language.isSome then i.language else s.language }

/-- The contact merge of lines 353-357: an object spread of the
extraction result over the existing record.  A key present in the
extraction result overwrites the existing field even when its value is
null; the telephone field is always rewritten from the sender id. -/
def mergeUserInfo (existing : UserInfo) (u : Option ExtractedUserInfo) (phone : Str) : UserInfo :=
  match u with
  | none => { existing with telephone := some phone }
  | some e =>
    { nom := e.nom.getD existing.nom
    , prenom := e.prenom.getD existing.prenom
    , villeActuelle := e.villeActuelle.getD existing.villeActuelle
    , email := e.email.getD existing.email
    , nombreJours := e.nombreJours.getD existing.nombreJours
    , dateDebut := e.dateDebut.getD existing.dateDebut
    , telephone := some phone }

/-- The town field the funnel inspects: localisationFr for property
documents, villeFr for vehicle documents (line 460-465).  The handler
decides by comparing the type slot with the immobilier literal. -/
def townKeyOf (isImmo : Bool) (doc : Offer) : Str :=
  if isImmo then doc.localisationFr else doc.villeFr

/-- Stage 2 of the funnel (lines 459-467): keep a document when its
lowercased town field and the user town contain each other in either
direction.  The userTown argument is the already-lowercased town slot,
exactly as the caller computes it at line 445. -/
def townMatches (isImmo : Bool) (userTown : Str) (docs : List Offer) : List Offer :=
  docs.filter (fun doc =>
    let k := toLowerCase (townKeyOf isImmo doc)
    strContains k userTown || strContains userTown k)

/-- The per-document service test of lines 473-501, with the furnished
special case for property and the multi-field search for vehicles. -/
def serviceMatchDoc (isImmo : Bool) (userService : Str) (doc : Offer) : Bool :=
  let description := toLowerCase doc.description
  let categorie := toLowerCase doc.CategorieFr
  if isImmo && (strContains userService ("meublé".toList) || strContains userService ("meuble".toList)) then
    let furnishedCategories := ["appartements meublés".toList, "studio meublés".toList, "maison meublés".toList]
    furnishedCategories.any (fun cat => strContains categorie (toLowerCase cat)) ||
      strContains description userService
  else if !isImmo then
    let modele := toLowerCase doc.modeleFr
    let marque := toLowerCase doc.marqueFr
    let nom := toLowerCase doc.nom
    strContains description userService || strContains categorie userService ||
      strContains modele userService || strContains marque userService ||
      strContains nom userService
  else
    strContains description userService || strContains categorie userService

/-- Stage 3 of the funnel (lines 471-509): filter by service, but fall
back to the town matches when the service term is empty or when the
filter would empty the set. -/
def serviceMatches (isImmo : Bool) (userService : Str) (townMs : List Offer) : List Offer :=
  if userService.isEmpty then townMs
  else
    let ms := townMs.filter (serviceMatchDoc isImmo userService)
    if ms.isEmpty then townMs else ms

/-- Stage 4 of the funnel (lines 511-523): for a positive budget keep a
document when its price lies within the tolerance band computed as
budget minus and plus one quarter of the budget; otherwise the filter
is skipped entirely. -/
def budgetMatches (userBudget : Rat) (serviceMs : List Offer) : List Offer :=
  if userBudget > 0 then
    let budgetTolerance := userBudget * (1 / 4 : Rat)
    let minBudget := userBudget - budgetTolerance
    let maxBudget := userBudget + budgetTolerance
    serviceMs.filter (fun doc =>
      decide (minBudget ≤ prixOrZero doc) && decide (prixOrZero doc ≤ maxBudget))
  else serviceMs

/-- True when the type slot equals the immobilier literal, the test of
lines 460 and 478. -/
def isImmoOf (s : UserIntentState) : Bool :=
  match s.type with
  | some OfferType.immobilier => true
  | _ => false

/-- The combined funnel of lines 455-523 applied to a session: town
stage, then service stage, then budget stage, reading the slots with
the or-defaults of lines 444-446. -/
def funnelMatches (s : UserIntentState) (catalog : List Offer) : List Offer :=
  budgetMatches (s.budget.getD 0)
    (serviceMatches (isImmoOf s) (toLowerCase (s.service.getD []))
      (townMatches (isImmoOf s) (toLowerCase (s.town.getD [])) catalog))

/-- The proposal batch of one slot-complete search turn (lines
444-543): run the funnel over the catalog, drop previously proposed ids
when the turn was classified as a refusal (lines 536-540), and take at
most five documents in engine output order (line 543). -/
def proposeBatch (s : UserIntentState) (isRefusal : Bool) (catalog : List Offer) : List Offer :=
  (if isRefusal && !s.lastProposedIds.isEmpty then
    (funnelMatches s catalog).filter (fun m => !(s.lastProposedIds.contains m.id))
  else funnelMatches s catalog).take 5

/-- The Session mutations of the slot-complete search branch: status is
set to ready on entry (line 441) and the new batch ids are concatenated
onto lastProposedIds (line 545). -/
def handleSearchBranch (s : UserIntentState) (isRefusal : Bool) (catalog : List Offer) : UserIntentState :=
  { s with
    status := "ready"
    lastProposedIds := s.lastProposedIds ++ (proposeBatch s isRefusal catalog).map Offer.id }

/-- The keyword allowlist of lines 207-214 used to decide whether the
message reacts to the previous proposals. -/
def interestKeywords : List Str :=
  [ "celle ci".toList, "celui ci".toList, "celle-ci".toList, "celui-ci".toList
  , "this one".toList, "that one".toList, "this".toList, "that".toList
  , "je veux".toList, "i want".toList, "je prends".toList, "i take".toList
  , "je choisis".toList, "i choose".toList, "je sélectionne".toList, "i select".toList
  , "ok".toList, "d\x27accord".toList, "alright".toList, "yes".toList, "oui".toList
  , "parfait".toList, "perfect".toList, "super".toList, "great".toList ]

/-- isReply of lines 216-217: a quoted message or any keyword hit. -/
def isReplyCheck (messageLower : Str) (hasQuotedMsg : Bool) : Bool :=
  hasQuotedMsg || interestKeywords.any (fun keyword => strContains messageLower keyword)

/-- The four fallback keywords of lines 260-261.  The hyphenated French
forms are absent here even though they appear in interestKeywords. -/
def fallbackKeywordHit (messageLower : Str) : Bool :=
  strContains messageLower ("celui ci".toList) || strContains messageLower ("celle ci".toList) ||
  strContains messageLower ("this one".toList) || strContains messageLower ("that one".toList)

/-- True for space, tab, newline and carriage return, the characters
String.trim removes. -/
def isWsChar (c : Char) : Bool := c == ' ' || c == '\t' || c == '\n' || c == '\r'

/-- String.trim on both ends. -/
def trimStr (s : Str) : Str :=
  ((s.dropWhile isWsChar).reverse.dropWhile isWsChar).reverse

/-- The numeric value of a non-empty leading digit run, none otherwise. -/
def digitsVal (s : Str) : Option Nat :=
  let ds := s.takeWhile Char.isDigit
  if ds.isEmpty then none
  else some (ds.foldl (fun acc c => acc * 10 + (c.toNat - 48)) 0)

/-- parseInt(reply.trim(), 10): optional sign followed by a digit run;
NaN (here none) when no digits are found. -/
def parseIntTrim (s : Str) : Option Int :=
  match trimStr s with
  | '-' :: rest => (digitsVal rest).map (fun n => -(n : Int))
  | '+' :: rest => (digitsVal rest).map (fun n => (n : Int))
  | t => (digitsVal t).map (fun n => (n : Int))

/-- The validity check of lines 253-255: the parsed index must lie in
[1..n]; the stored value is the zero-based index. -/
def validParsedIdx (reply : Str) (n : Nat) : Option Nat :=
  match parseIntTrim reply with
  | some idx => if 1 ≤ idx ∧ idx ≤ (n : Int) then some (idx.toNat - 1) else none
  | none => none

/-- The interest classification of lines 202-270, producing the
zero-based interestedIndex.  The reply argument is the NLU response;
none models a thrown call, which the surrounding try-catch turns into
no selection. -/
def detectInterestedIndex (lastIds : List Nat) (msg : Str) (hasQuotedMsg : Bool)
    (reply : Option Str) : Option Nat :=
  if lastIds.length > 0 then
    let messageLower := toLowerCase msg
    let isReply := isReplyCheck messageLower hasQuotedMsg
    if isReply && lastIds.length == 1 then some 0
    else if isReply && decide (lastIds.length > 1) then
      match reply with
      | none => none
      | some r =>
        match validParsedIdx r lastIds.length with
        | some k => some k
        | none => if fallbackKeywordHit messageLower then some (lastIds.length - 1) else none
    else none
  else none

/-- The store read of line 278: a find with an id-in-ids clause.  The
database returns the matching documents in store (catalog) order; it
does not reorder them to follow the ids array. -/
def mongoFindIn (catalog : List Offer) (ids : List Nat) : List Offer :=
  catalog.filter (fun o => ids.contains o.id)

/-- True when the lowercased service slot contains the needle; false
when the slot is null (the optional chaining of lines 301-303). -/
def svcHas (s : UserIntentState) (needle : Str) : Bool :=
  match s.service with
  | none => false
  | some v => strContains (toLowerCase v) needle

/-- The rental test of lines 301-306, applied to the freshly selected
offer. -/
def isRentalOffer (s : UserIntentState) (o : Offer) : Bool :=
  svcHas s ("location".toList) || svcHas s ("louer".toList) || svcHas s ("rent".toList) ||
  strContains (toLowerCase o.CategorieFr) ("location".toList) ||
  strContains (toLowerCase o.description) ("location".toList) ||
  strContains (toLowerCase o.description) ("louer".toList)

/-- The Session mutations of the selection branch (lines 273-313): load
the proposed offers from the store, index the returned list with the
classified interestedIndex, and persist the selection.  When the index
falls outside the returned list nothing is persisted. -/
def handleInterestBranch (s : UserIntentState) (catalog : List Offer) (interestedIndex : Nat) : UserIntentState :=
  let offers := mongoFindIn catalog s.lastProposedIds
  match offers.get? interestedIndex with
  | none => s
  | some selectedOffer =>
    { s with
      selectedOfferId := some selectedOffer.id
      selectedOfferDetails := some selectedOffer
      status := "collecting_info"
      requestType := some (if isRentalOffer s selectedOffer then "rental" else "purchase") }

/-- The rental test of lines 338-343 used inside the contact-collection
branch, reading the stored selected offer. -/
def isRentalOf (s : UserIntentState) : Bool :=
  svcHas s ("location".toList) || svcHas s ("louer".toList) || svcHas s ("rent".toList) ||
  (match s.selectedOfferDetails with
   | none => false
   | some o =>
     strContains (toLowerCase o.CategorieFr) ("location".toList) ||
     strContains (toLowerCase o.description) ("location".toList) ||
     strContains (toLowerCase o.description) ("louer".toList))

/-- The language slot with its or-fr default (line 190 and passim). -/
def langOf (s : UserIntentState) : Lang := s.language.getD Lang.fr

/-- getNextFieldToAsk of lines 752-775: walk the fixed question order
and return the label of the first unmet field, null when complete.  The
name question is asked only when both nom and prenom are missing. -/
def getNextFieldToAsk (userInfo : UserInfo) (isRental : Bool) (language : Lang) : Option String :=
  if !truthyStr userInfo.nom && !truthyStr userInfo.prenom then
    some (if language = Lang.fr then "nom_et_prenom" else "first_and_last_name")
  else if !truthyStr userInfo.villeActuelle then
    some (if language = Lang.fr then "ville_actuelle" else "current_city")
  else if isRental then
    if !truthyStr userInfo.email then some "email"
    else if !truthyNum userInfo.nombreJours then
      some (if language = Lang.fr then "nombre_jours" else "number_of_days")
    else if !truthyStr userInfo.dateDebut then
      some (if language = Lang.fr then "date_debut" else "start_date")
    else none
  else none

/-- The contact fields, in the spec's wording. -/
inductive ContactField
  | nameSurname
  | currentCity
  | email
  | numberOfDays
  | startDate
deriving DecidableEq

/-- Modelled from the spec: whether a contact field is met by the
stored record.  The combined name-and-surname field counts as met when
either part is known, which is how the source asks the question. -/
def fieldMet (ui : UserInfo) : ContactField → Bool
  | ContactField.nameSurname => truthyStr ui.nom || truthyStr ui.prenom
  | ContactField.currentCity => truthyStr ui.villeActuelle
  | ContactField.email => truthyStr ui.email
  | ContactField.numberOfDays => truthyNum ui.nombreJours
  | ContactField.startDate => truthyStr ui.dateDebut

/-- Modelled from the spec: the fixed priority order name-and-surname,
currentCity, then for rentals email, numberOfDays, startDate. -/
def contactPriority (isRental : Bool) : List ContactField :=
  [ContactField.nameSurname, ContactField.currentCity] ++
    (if isRental then [ContactField.email, ContactField.numberOfDays, ContactField.startDate] else [])

/-- Modelled from the spec: the next field to prompt is the earliest
unmet field of the priority order. -/
def nextFieldSpec (ui : UserInfo) (isRental : Bool) : Option ContactField :=
  (contactPriority isRental).find? (fun f => !fieldMet ui f)

/-- The label the source returns for each field in each language. -/
def fieldLabel (language : Lang) : ContactField → String
  | ContactField.nameSurname => if language = Lang.fr then "nom_et_prenom" else "first_and_last_name"
  | ContactField.currentCity => if language = Lang.fr then "ville_actuelle" else "current_city"
  | ContactField.email => "email"
  | ContactField.numberOfDays => if language = Lang.fr then "nombre_jours" else "number_of_days"
  | ContactField.startDate => if language = Lang.fr then "date_debut" else "start_date"

/-- The Session mutations of the contact-collection branch (lines
331-437): merge the extraction result, then either complete (status
ready) or store the partial record and keep the current status while
the next question is asked. -/
def handleContactBranch (s : UserIntentState) (extracted : Option ExtractedUserInfo) (phone : Str) : UserIntentState :=
  let mergedUserInfo := mergeUserInfo s.userInfo extracted phone
  match getNextFieldToAsk mergedUserInfo (isRentalOf s) (langOf s) with
  | none => { s with userInfo := mergedUserInfo, status := "ready" }
  | some _ => { s with userInfo := mergedUserInfo }

/-- The slot-completeness guard of line 440: all four slots truthy. -/
def slotComplete (s : UserIntentState) : Bool :=
  truthyStr s.service && truthyStr s.town && truthyNum s.budget && s.type.isSome

/-- The missing-slot prompts of lines 677-680 (for an existing user). -/
def missingSlots (s : UserIntentState) (lang : Lang) : List String :=
  (if !truthyStr s.service then
    [if lang = Lang.fr then "le service ou le type de produit" else "service or type of product"] else []) ++
  (if !truthyStr s.town then
    [if lang = Lang.fr then "la ville" else "town or city"] else []) ++
  (if !truthyNum s.budget then
    [if lang = Lang.fr then "le budget" else "budget"] else [])

/-- The outcome of the slot check that ends a turn which selected no
offer and is not collecting contact fields. -/
inductive TurnAction
  | searchOffers
  | askMissing (missing : List String)
deriving DecidableEq

/-- The dispatch of lines 440 and 673-684: run the search branch when
the slots are complete, otherwise ask for what is missing. -/
def dispatchSlots (s : UserIntentState) (lang : Lang) : TurnAction :=
  if slotComplete s then TurnAction.searchOffers else TurnAction.askMissing (missingSlots s lang)

/-- A vehicle document that passes the whole funnel for the session
below: town Douala, a description containing the service term, price
inside the tolerance band of budget 100. -/
def offerCar : Offer :=
  { id := 2, nom := "toyota".toList, prix := some 100, localisationFr := []
  , villeFr := "Douala".toList, description := "car toyota".toList
  , CategorieFr := [], modeleFr := [], marqueFr := [] }

/-- A slot-complete session in the collecting status with one offer id
already proposed on an earlier turn. -/
def sSearch : UserIntentState :=
  { service := some ("car".toList), town := some ("Douala".toList)
  , budget := some 100, type := some OfferType.vehicule, language := some Lang.fr
  , status := "collecting", lastProposedIds := [9]
  , selectedOfferId := none, selectedOfferDetails := none, requestType := none
  , userInfo := emptyUserInfo }

/-- The same session with a zero budget slot. -/
def sZero : UserIntentState := { sSearch with budget := some 0 }

/-- The same session with a negative (still truthy) budget slot. -/
def sNegBudget : UserIntentState := { sSearch with budget := some (-4) }

/-- Three catalog documents sharing town and price band, identified by
the ids the selection scenario uses. -/
def offer101 : Offer :=
  { id := 101, nom := "berline a".toList, prix := some 100, localisationFr := []
  , villeFr := "Douala".toList, description := "berline".toList
  , CategorieFr := [], modeleFr := [], marqueFr := [] }

/-- Second document of the selection scenario. -/
def offer102 : Offer :=
  { id := 102, nom := "berline b".toList, prix := some 100, localisationFr := []
  , villeFr := "Douala".toList, description := "berline".toList
  , CategorieFr := [], modeleFr := [], marqueFr := [] }

/-- Third document of the selection scenario. -/
def offer103 : Offer :=
  { id := 103, nom := "berline c".toList, prix := some 100, localisationFr := []
  , villeFr := "Douala".toList, description := "berline".toList
  , CategorieFr := [], modeleFr := [], marqueFr := [] }

/-- A store whose storage order differs from the proposal order: the
document with id 103 is stored first. -/
def catalogSelect : List Offer := [offer103, offer101, offer102]

/-- A session whose last proposal batch was, in engine output order,
the ids 101, 102, 103. -/
def sSelect : UserIntentState :=
  { sSearch with lastProposedIds := [101, 102, 103], status := "ready" }

/-- The sender-id-derived phone number. -/
def phoneNum : Str := "237650000000".toList

/-- A stored contact record in which name and surname are known. -/
def uiKnown : UserInfo :=
  { nom := some ("Bahanack".toList), prenom := some ("Georges".toList)
  , villeActuelle := none, email := none, nombreJours := none
  , dateDebut := none, telephone := none }

/-- A rental contact record with only name, surname and the
auto-recorded telephone known. -/
def uiNameOnly : UserInfo := { uiKnown with telephone := some phoneNum }

/-- An extraction result that carries a new city but explicit nulls for
nom and prenom: hasInfo holds, so the object is spread as is. -/
def eMixed : ExtractedUserInfo :=
  { nom := some none, prenom := some none
  , villeActuelle := some (some ("douala".toList))
  , email := none, nombreJours := none, dateDebut := none }

/-- An extraction result whose keys are all present but null: hasInfo
fails and extractUserInfo returns null. -/
def eAllNull : ExtractedUserInfo :=
  { nom := some none, prenom := some none, villeActuelle := some none
  , email := some none, nombreJours := some none, dateDebut := some none }

/-- A truthy nullable string is non-null. -/
theorem truthyStr_ne_none {o : Option Str} (h : truthyStr o = true) : o ≠ none := by
  cases o with
  | none => simp [truthyStr] at h
  | some s => simp

/-- A truthy nullable number is non-null and non-zero. -/
theorem truthyNum_spec {o : Option Rat} (h : truthyNum o = true) : ∃ b, o = some b ∧ b ≠ 0 := by
  cases o with
  | none => simp [truthyNum] at h
  | some b => exact ⟨b, rfl, by simpa [truthyNum] using h⟩

/-- C7: for every user town and every catalog offer, the town filter
retains the offer iff the normalized offer town is a substring of the
normalized user town or the normalized user town is a substring of the
normalized offer town.  The userTown argument is the normalized user
town, exactly what the handler passes after lowercasing the town slot. -/
theorem c7_town_filter_membership :
    ∀ (isImmo : Bool) (userTown : Str) (docs : List Offer) (o : Offer),
      o ∈ townMatches isImmo userTown docs ↔
        o ∈ docs ∧
          (strContains userTown (toLowerCase (townKeyOf isImmo o)) = true ∨
           strContains (toLowerCase (townKeyOf isImmo o)) userTown = true) := by
  intro isImmo userTown docs o
  simp only [townMatches, List.mem_filter, Bool.or_eq_true]
  tauto

/-- C8: the service-filter stage never empties a non-empty town-filtered
set: when the filter result would be empty (or the service term itself
is empty) the stage returns the town-filtered set unchanged. -/
theorem c8_service_filter_fallback :
    ∀ (isImmo : Bool) (userService : Str) (townMs : List Offer),
      townMs ≠ [] → serviceMatches isImmo userService townMs ≠ [] := by
  intro isImmo userService townMs h
  by_cases h1 : userService.isEmpty
  · simpa [serviceMatches, h1] using h
  · by_cases h2 : (townMs.filter (serviceMatchDoc isImmo userService)).isEmpty
    · simpa [serviceMatches, h1, h2] using h
    · simp only [serviceMatches, h1, if_false, Bool.false_eq_true, if_neg h2]
      intro hc
      exact h2 (by simp [hc])

/-- Witness for c8_service_filter_fallback at a concrete non-empty
town-filtered set and a service term that matches nothing. -/
theorem c8_service_filter_fallback_witness :
    ([offerCar] : List Offer) ≠ [] ∧ serviceMatches false ("xyz".toList) [offerCar] ≠ [] :=
  ⟨by decide, c8_service_filter_fallback false ("xyz".toList) [offerCar] (by decide)⟩

/-- C6 amended: for every positive budget an offer passes the budget
stage iff its price lies in the closed band from three quarters to five
quarters of the budget; for a non-positive budget reaching the stage
the filter is skipped and every offer passes unchanged. -/
theorem c6_budget_band :
    ∀ (b : Rat) (l : List Offer) (o : Offer),
      (0 < b →
        (o ∈ budgetMatches b l ↔
          o ∈ l ∧ (3 / 4 : Rat) * b ≤ prixOrZero o ∧ prixOrZero o ≤ (5 / 4 : Rat) * b)) ∧
      (¬ 0 < b → budgetMatches b l = l) := by
  intro b l o
  constructor
  · intro hb
    unfold budgetMatches
    rw [if_pos hb]
    simp only [List.mem_filter, Bool.and_eq_true, decide_eq_true_eq]
    constructor
    · rintro ⟨h1, h2, h3⟩
      exact ⟨h1, by linarith, by linarith⟩
    · rintro ⟨h1, h2, h3⟩
      exact ⟨h1, by linarith, by linarith⟩
  · intro hb
    unfold budgetMatches
    rw [if_neg hb]

/-- Witness for c6_budget_band at budget 100 and a 100-priced offer. -/
theorem c6_budget_band_witness :
    (0 : Rat) < 100 ∧
      (offerCar ∈ budgetMatches 100 [offerCar] ↔
        offerCar ∈ [offerCar] ∧
          (3 / 4 : Rat) * 100 ≤ prixOrZero offerCar ∧
          prixOrZero offerCar ≤ (5 / 4 : Rat) * 100) :=
  ⟨by norm_num, (c6_budget_band 100 [offerCar] offerCar).1 (by norm_num)⟩

/-- C6 counterexample: a session whose budget slot is the truthy value
minus four reaches the search branch, the budget filter is skipped, and
an offer priced at 100 is included although 100 does not lie in the
band around minus four. -/
theorem c6_budget_band_counterexample :
    offerCar ∈ budgetMatches (-4) [offerCar] ∧
    offerCar ∈ proposeBatch sNegBudget false [offerCar] ∧
    slotComplete sNegBudget = true ∧
    ¬ ((3 / 4 : Rat) * (-4) ≤ prixOrZero offerCar ∧ prixOrZero offerCar ≤ (5 / 4 : Rat) * (-4)) := by
  refine ⟨by decide, by decide, by decide, ?_⟩
  intro hc
  have := hc.2
  rw [prixOrZero, offerCar] at this
  norm_num at this

/-- C1 amended: a slot-complete search turn appends the new proposal
batch (at most five ids, in engine output order) to the existing
lastProposedIds; ids from earlier batches are retained, not replaced. -/
theorem c1_batch_appended :
    ∀ (s : UserIntentState) (isRefusal : Bool) (catalog : List Offer),
      (handleSearchBranch s isRefusal catalog).lastProposedIds
        = s.lastProposedIds ++ (proposeBatch s isRefusal catalog).map Offer.id ∧
      (proposeBatch s isRefusal catalog).length ≤ 5 := by
  intro s r c
  refine ⟨rfl, ?_⟩
  unfold proposeBatch
  simp [List.length_take]

/-- The budget stage at the concrete budget 100 keeps the 100-priced
offer: the tolerance band is computed with exact rational arithmetic. -/
theorem budgetMatches_hundred_eval : budgetMatches 100 [offerCar] = [offerCar] := by
  unfold budgetMatches
  rw [if_pos (by norm_num : (100 : Rat) > 0)]
  have hb : (decide ((100 : Rat) - 100 * (1 / 4 : Rat) ≤ prixOrZero offerCar) &&
      decide (prixOrZero offerCar ≤ (100 : Rat) + 100 * (1 / 4 : Rat))) = true := by
    rw [Bool.and_eq_true, decide_eq_true_eq, decide_eq_true_eq]
    exact ⟨by norm_num [prixOrZero, offerCar], by norm_num [prixOrZero, offerCar]⟩
  simp only [List.filter_cons, List.filter_nil, hb, if_true]

/-- The full funnel of the concrete search turn proposes the batch
containing exactly the offer with id 2. -/
theorem proposeBatch_sSearch_eval : proposeBatch sSearch false [offerCar] = [offerCar] := by
  have hsm : serviceMatches (isImmoOf sSearch) (toLowerCase (sSearch.service.getD []))
      (townMatches (isImmoOf sSearch) (toLowerCase (sSearch.town.getD [])) [offerCar])
        = [offerCar] := by decide
  have hb : sSearch.budget.getD 0 = 100 := by decide
  show (funnelMatches sSearch [offerCar]).take 5 = [offerCar]
  unfold funnelMatches
  rw [hsm, hb, budgetMatches_hundred_eval]
  decide

/-- C1 counterexample: a turn that proposes the new one-element batch
with id 2 while id 9 was proposed earlier leaves lastProposedIds equal
to the concatenation, not to the new batch alone. -/
theorem c1_batch_appended_counterexample :
    proposeBatch sSearch false [offerCar] = [offerCar] ∧
    (handleSearchBranch sSearch false [offerCar]).lastProposedIds = [9, 2] ∧
    (handleSearchBranch sSearch false [offerCar]).lastProposedIds ≠
      (proposeBatch sSearch false [offerCar]).map Offer.id := by
  refine ⟨proposeBatch_sSearch_eval, ?_, ?_⟩
  · show sSearch.lastProposedIds ++ (proposeBatch sSearch false [offerCar]).map Offer.id = [9, 2]
    rw [proposeBatch_sSearch_eval]
    decide
  · show sSearch.lastProposedIds ++ (proposeBatch sSearch false [offerCar]).map Offer.id ≠
      (proposeBatch sSearch false [offerCar]).map Offer.id
    rw [proposeBatch_sSearch_eval]
    decide

/-- C4 amended: the status becomes ready in two places, not one: every
slot-complete search turn sets status to ready on entry, before any
offer is selected or any contact field collected; and a contact
collection turn ends with status ready exactly when no contact field is
missing after the merge (or the status was already ready). -/
theorem c4_ready_transitions :
    ∀ (s : UserIntentState) (isRefusal : Bool) (catalog : List Offer)
      (u : Option ExtractedUserInfo) (phone : Str),
      (slotComplete s = true → (handleSearchBranch s isRefusal catalog).status = "ready") ∧
      ((handleContactBranch s u phone).status = "ready" ↔
        (getNextFieldToAsk (mergeUserInfo s.userInfo u phone) (isRentalOf s) (langOf s) = none ∨
          s.status = "ready")) := by
  intro s r c u p
  constructor
  · intro _
    rfl
  · unfold handleContactBranch
    cases h : getNextFieldToAsk (mergeUserInfo s.userInfo u p) (isRentalOf s) (langOf s) <;>
      simp [h]

/-- Witness for c4_ready_transitions at a concrete slot-complete
session. -/
theorem c4_ready_transitions_witness :
    slotComplete sSearch = true ∧ (handleSearchBranch sSearch false [offerCar]).status = "ready" :=
  ⟨by decide, (c4_ready_transitions sSearch false [offerCar] none []).1 (by decide)⟩

/-- C4 counterexample: a slot-complete search turn on a session that is
still collecting, with every contact field missing, sets status to
ready. -/
theorem c4_ready_transitions_counterexample :
    slotComplete sSearch = true ∧
    sSearch.status = "collecting" ∧
    getNextFieldToAsk sSearch.userInfo (isRentalOf sSearch) (langOf sSearch) = some "nom_et_prenom" ∧
    (handleSearchBranch sSearch false [offerCar]).status = "ready" := by
  refine ⟨by decide, by decide, by decide, rfl⟩

/-- C10: the search branch is dispatched only when the service, town
and type slots are non-null and the budget slot holds a non-null,
non-zero value; a session whose budget slot is zero is sent to the
missing-slot prompt and its prompt list names the budget. -/
theorem c10_zero_budget_not_searched :
    ∀ (s : UserIntentState) (lang : Lang),
      (dispatchSlots s lang = TurnAction.searchOffers →
        s.service ≠ none ∧ s.town ≠ none ∧ s.type ≠ none ∧
          ∃ b, s.budget = some b ∧ b ≠ 0) ∧
      (s.budget = some 0 →
        dispatchSlots s lang = TurnAction.askMissing (missingSlots s lang) ∧
        (if lang = Lang.fr then "le budget" else "budget") ∈ missingSlots s lang) := by
  intro s lang
  constructor
  · intro h
    unfold dispatchSlots at h
    by_cases hc : slotComplete s = true
    · have h4 := hc
      simp only [slotComplete, Bool.and_eq_true] at h4
      obtain ⟨⟨⟨hs, ht⟩, hb⟩, hty⟩ := h4
      exact ⟨truthyStr_ne_none hs, truthyStr_ne_none ht,
        Option.ne_none_iff_isSome.mpr hty, truthyNum_spec hb⟩
    · rw [if_neg hc] at h
      exact absurd h (by simp)
  · intro hb
    have hnum : truthyNum s.budget = false := by
      rw [hb]
      simp [truthyNum]
    have hsc : slotComplete s = false := by
      unfold slotComplete
      rw [hnum]
      simp
    refine ⟨by unfold dispatchSlots; rw [if_neg (by simp [hsc])], ?_⟩
    unfold missingSlots
    rw [hnum]
    cases lang <;> simp

/-- Witness for c10_zero_budget_not_searched: a complete session is
dispatched to the search branch with non-null slots, and the
zero-budget session is prompted for the budget. -/
theorem c10_zero_budget_not_searched_witness :
    (sSearch.service ≠ none ∧ sSearch.town ≠ none ∧ sSearch.type ≠ none ∧
      ∃ b, sSearch.budget = some b ∧ b ≠ 0) ∧
    (dispatchSlots sZero Lang.fr = TurnAction.askMissing (missingSlots sZero Lang.fr) ∧
      (if Lang.fr = Lang.fr then "le budget" else "budget") ∈ missingSlots sZero Lang.fr) :=
  ⟨(c10_zero_budget_not_searched sSearch Lang.fr).1 (by decide),
   (c10_zero_budget_not_searched sZero Lang.fr).2 (by decide)⟩

/-- C9: getNextFieldToAsk returns the label of the earliest unmet field
of the fixed priority walk (name-and-surname, currentCity, then for
rentals email, numberOfDays, startDate), and in particular a rental
record with only name, surname and the auto-recorded telephone known is
prompted for the current city, never for email, numberOfDays or
startDate. -/
theorem c9_contact_priority :
    (∀ (ui : UserInfo) (isRental : Bool) (language : Lang),
      getNextFieldToAsk ui isRental language
        = (nextFieldSpec ui isRental).map (fieldLabel language)) ∧
    (∀ language : Lang,
      getNextFieldToAsk uiNameOnly true language
        = some (fieldLabel language ContactField.currentCity)) := by
  constructor
  · intro ui r lang
    cases hn : truthyStr ui.nom <;> cases hp : truthyStr ui.prenom <;>
      cases hv : truthyStr ui.villeActuelle <;> cases he : truthyStr ui.email <;>
      cases hj : truthyNum ui.nombreJours <;> cases hd : truthyStr ui.dateDebut <;>
      cases r <;>
      simp [getNextFieldToAsk, nextFieldSpec, contactPriority, fieldMet, fieldLabel,
        List.find?, hn, hp, hv, he, hj, hd]
  · intro lang
    cases lang <;> decide

/-- C3 amended: the intent-slot merge is non-destructive as claimed (an
all-null extraction is the identity and no slot is ever cleared), but
the contact merge is an object spread: an extraction with no truthy
field is returned as null and changes nothing except the telephone,
while an extraction with some truthy field overwrites every present
key, including keys carrying null, which clears known fields. -/
theorem c3_merge_policy :
    (∀ s : UserIntentState, mergeIntent s noneIntent = s) ∧
    (∀ (s : UserIntentState) (i : IntentExtract),
      ((mergeIntent s i).service = none → s.service = none) ∧
      ((mergeIntent s i).town = none → s.town = none) ∧
      ((mergeIntent s i).budget = none → s.budget = none) ∧
      ((mergeIntent s i).type = none → s.type = none) ∧
      ((mergeIntent s i).language = none → s.language = none)) ∧
    (∀ (ui : UserInfo) (e : ExtractedUserInfo) (phone : Str),
      hasInfo e = false →
        mergeUserInfo ui (extractUserInfoResult e) phone = { ui with telephone := some phone }) ∧
    (∀ (ui : UserInfo) (e : ExtractedUserInfo) (phone : Str),
      hasInfo e = true → e.nom = some none →
        (mergeUserInfo ui (extractUserInfoResult e) phone).nom = none) := by
  refine ⟨?_, ?_, ?_, ?_⟩
  · intro s
    rfl
  · intro s i
    refine ⟨?_, ?_, ?_, ?_, ?_⟩ <;> intro h <;> simp only [mergeIntent] at h
    · cases hc : truthyStr i.service
      · rw [hc] at h
        simpa using h
      · rw [hc] at h
        simp at h
        exact absurd h (by simpa using truthyStr_ne_none hc)
    · cases hc : truthyStr i.town
      · rw [hc] at h
        simpa using h
      · rw [hc] at h
        simp at h
        exact absurd h (by simpa using truthyStr_ne_none hc)
    · cases hc : truthyNum i.budget
      · rw [hc] at h
        simpa using h
      · rw [hc] at h
        simp at h
        obtain ⟨b, hb, _⟩ := truthyNum_spec hc
        rw [hb] at h
        exact Option.noConfusion h
    · cases hc : i.type.isSome
      · rw [hc] at h
        simpa using h
      · rw [hc] at h
        simp at h
        exact absurd h (by simpa using Option.ne_none_iff_isSome.mpr hc)
    · cases hc : i.language.isSome
      · rw [hc] at h
        simpa using h
      · rw [hc] at h
        simp at h
        exact absurd h (by simpa using Option.ne_none_iff_isSome.mpr hc)
  · intro ui e phone h
    simp [extractUserInfoResult, h, mergeUserInfo]
  · intro ui e phone h1 h2
    simp [extractUserInfoResult, h1, mergeUserInfo, h2]

/-- Witness for c3_merge_policy at the concrete records: the all-null
extraction changes only the telephone, and the mixed extraction clears
the known nom field. -/
theorem c3_merge_policy_witness :
    (hasInfo eAllNull = false ∧
      mergeUserInfo uiKnown (extractUserInfoResult eAllNull) phoneNum
        = { uiKnown with telephone := some phoneNum }) ∧
    (hasInfo eMixed = true ∧ eMixed.nom = some none ∧
      (mergeUserInfo uiKnown (extractUserInfoResult eMixed) phoneNum).nom = none) :=
  ⟨⟨by decide, c3_merge_policy.2.2.1 uiKnown eAllNull phoneNum (by decide)⟩,
   ⟨by decide, by decide, c3_merge_policy.2.2.2 uiKnown eMixed phoneNum (by decide) rfl⟩⟩

/-- C3 counterexample: an extraction result carrying a new city but a
null nom clears the previously known nom on merge, and even the
all-null extraction changes the telephone field of a record that had
none. -/
theorem c3_merge_policy_counterexample :
    hasInfo eMixed = true ∧
    uiKnown.nom = some ("Bahanack".toList) ∧
    (mergeUserInfo uiKnown (extractUserInfoResult eMixed) phoneNum).nom = none ∧
    uiKnown.telephone = none ∧
    (mergeUserInfo uiKnown (extractUserInfoResult eAllNull) phoneNum).telephone ≠ uiKnown.telephone := by
  refine ⟨by decide, by decide, by decide, by decide, by decide⟩

/-- C5 amended: with more than one proposed offer and a reply-like
message, an unparsable or out-of-range NLU response falls back to the
last proposed index only when the lowercased message contains one of
the four unhyphenated fallback keywords, and a thrown NLU call yields
no selection at all; so the space-separated phrase je veux celui ci
selects the last offer while the claim's hyphenated je veux celui-ci
selects nothing. -/
theorem c5_interest_fallback :
    (∀ (lastIds : List Nat) (msg : Str) (hq : Bool) (reply : Str),
      1 < lastIds.length →
      isReplyCheck (toLowerCase msg) hq = true →
      validParsedIdx reply lastIds.length = none →
      detectInterestedIndex lastIds msg hq (some reply)
        = (if fallbackKeywordHit (toLowerCase msg) then some (lastIds.length - 1) else none)) ∧
    (∀ (lastIds : List Nat) (msg : Str) (hq : Bool),
      1 < lastIds.length →
      isReplyCheck (toLowerCase msg) hq = true →
      detectInterestedIndex lastIds msg hq none = none) ∧
    detectInterestedIndex [101, 102, 103] ("je veux celui ci".toList) false
      (some ("none".toList)) = some 2 := by
  refine ⟨?_, ?_, by decide⟩
  · intro lastIds msg hq reply h1 h2 h3
    have h0 : lastIds.length > 0 := by omega
    have hne : (lastIds.length == 1) = false := beq_eq_false_iff_ne.mpr (by omega)
    have hgt : decide (lastIds.length > 1) = true := decide_eq_true h1
    simp only [detectInterestedIndex, if_pos h0, h2, hne, hgt, Bool.true_and, Bool.and_false,
      Bool.false_eq_true, if_false, h3, if_true]
  · intro lastIds msg hq h1 h2
    have h0 : lastIds.length > 0 := by omega
    have hne : (lastIds.length == 1) = false := beq_eq_false_iff_ne.mpr (by omega)
    have hgt : decide (lastIds.length > 1) = true := decide_eq_true h1
    simp only [detectInterestedIndex, if_pos h0, h2, hne, hgt, Bool.true_and, Bool.and_false,
      Bool.false_eq_true, if_false, if_true]

/-- Witness for c5_interest_fallback at the concrete three-offer batch:
the hyphenated message triggers the fallback path and its keyword check
fails, and the thrown-call case selects nothing. -/
theorem c5_interest_fallback_witness :
    (1 < ([101, 102, 103] : List Nat).length ∧
      isReplyCheck (toLowerCase ("je veux celui-ci".toList)) false = true ∧
      validParsedIdx ("none".toList) ([101, 102, 103] : List Nat).length = none ∧
      detectInterestedIndex [101, 102, 103] ("je veux celui-ci".toList) false
          (some ("none".toList))
        = (if fallbackKeywordHit (toLowerCase ("je veux celui-ci".toList)) then
            some (([101, 102, 103] : List Nat).length - 1) else none)) ∧
    detectInterestedIndex [101, 102, 103] ("oui merci".toList) false none = none :=
  ⟨⟨by decide, by decide, by decide,
    c5_interest_fallback.1 [101, 102, 103] ("je veux celui-ci".toList) false
      ("none".toList) (by decide) (by decide) (by decide)⟩,
   c5_interest_fallback.2.1 [101, 102, 103] ("oui merci".toList) false (by decide) (by decide)⟩

/-- C5 counterexample: with lastProposedIds 101, 102, 103 and the
message je veux celui-ci, an unparsable NLU response produces no
selection (not the claimed selection of the offer at index 3, id 103),
and a thrown NLU call also produces no selection. -/
theorem c5_interest_fallback_counterexample :
    detectInterestedIndex [101, 102, 103] ("je veux celui-ci".toList) false
      (some ("none".toList)) = none ∧
    detectInterestedIndex [101, 102, 103] ("je veux celui-ci".toList) false none = none ∧
    ([101, 102, 103] : List Nat).get? 2 = some 103 := by
  refine ⟨by decide, by decide, by decide⟩

/-- C2: the selection branch indexes the list returned by the store
query, which is in store order, not in lastProposedIds order.  With the
batch 101, 102, 103 but a store that holds the document with id 103
first, a classified index of 1 (zero-based 0) persists the offer with
id 103 although position 1 of lastProposedIds is 101. -/
theorem c2_selection_store_order :
    detectInterestedIndex sSelect.lastProposedIds ("je veux 1".toList) false
      (some ("1".toList)) = some 0 ∧
    sSelect.lastProposedIds.get? 0 = some 101 ∧
    mongoFindIn catalogSelect sSelect.lastProposedIds = [offer103, offer101, offer102] ∧
    (handleInterestBranch sSelect catalogSelect 0).selectedOfferId = some 103 ∧
    (handleInterestBranch sSelect catalogSelect 0).selectedOfferDetails = some offer103 ∧
    (handleInterestBranch sSelect catalogSelect 0).status = "collecting_info" := by
  refine ⟨by decide, by decide, by decide, by decide, by decide, by decide⟩
